import Mathlib

/-!
Verification of the slide-deck controller (`assets/slides.js`).

The repository contains two variants of the controller:
* the unified variant (`did-slides-2/assets/slides.js`): `SlidePresenter`
  plus a single `InfoDialogManager`;
* the split variant (`assets/slides.js`): the same `SlidePresenter` but with
  no dialog check in `handleKeydown`, plus `LectureNotesModal` and
  `DetailButtons` wired through capture-phase Escape listeners.

We embed both shallowly: DOM mutation becomes explicit state passing, and a
page navigation (`window.location.href = url`) becomes an emitted effect.
-/

/-- JavaScript whitespace accepted by `parseInt`: ASCII whitespace and line
terminators, NBSP, ZWNBSP, and the Unicode space separators. -/
def isJsSpace (c : Char) : Bool :=
  c == ' ' || c == '\t' || c == '\n' || c == '\r' ||
  c == '\u000B' || c == '\u000C' || c == '\u00A0' || c == '\uFEFF' ||
  c == '\u1680' || ('\u2000' ≤ c && c ≤ '\u200A') ||
  c == '\u2028' || c == '\u2029' || c == '\u202F' || c == '\u205F' ||
  c == '\u3000'

/-- Decimal digit value of a character, if any. -/
def digitVal (c : Char) : Option Nat :=
  if '0' ≤ c ∧ c ≤ '9' then some (c.toNat - '0'.toNat) else none

/-- Hexadecimal digit value of a character, if any. -/
def hexVal (c : Char) : Option Nat :=
  if '0' ≤ c ∧ c ≤ '9' then some (c.toNat - '0'.toNat)
  else if 'a' ≤ c ∧ c ≤ 'f' then some (c.toNat - 'a'.toNat + 10)
  else if 'A' ≤ c ∧ c ≤ 'F' then some (c.toNat - 'A'.toNat + 10)
  else none

/-- Accumulate the longest prefix of digits, as JavaScript `parseInt` does. -/
def parseDigitsAux (dv : Char → Option Nat) (base : Nat) :
    List Char → Nat → Nat
  | [], acc => acc
  | c :: rest, acc =>
    match dv c with
    | some d => parseDigitsAux dv base rest (acc * base + d)
    | none => acc

/-- JavaScript `parseInt(s)` with no radix argument: skip whitespace, optional
sign, optional `0x`/`0X` hex prefix, then the longest digit prefix; `none`
models `NaN`. -/
def parseIntJS (s : String) : Option Int :=
  let cs := s.toList.dropWhile isJsSpace
  let signAndRest : Int × List Char :=
    match cs with
    | '-' :: rest => (-1, rest)
    | '+' :: rest => (1, rest)
    | _ => (1, cs)
  let sign := signAndRest.1
  let afterSign := signAndRest.2
  let baseAndRest : Nat × List Char :=
    match afterSign with
    | '0' :: 'x' :: rest => (16, rest)
    | '0' :: 'X' :: rest => (16, rest)
    | _ => (10, afterSign)
  let base := baseAndRest.1
  let digits := baseAndRest.2
  let dv := if base == 16 then hexVal else digitVal
  match digits with
  | [] => none
  | c :: rest =>
    match dv c with
    | some d => some (sign * (parseDigitsAux dv base rest d : Int))
    | none => none

/-- JavaScript `parseInt(attr) || 1`: `NaN` and `0` are falsy, so both fall
back to `1`; a missing attribute (`none`) parses to `NaN`. -/
def parsedOrOne (s : Option String) : Int :=
  match s.bind parseIntJS with
  | some v => if v = 0 then 1 else v
  | none => 1

/-- JavaScript `String.prototype.padStart(targetLen, pad)`. -/
def jsPadStart (targetLen : Nat) (pad : Char) (s : String) : String :=
  if s.length < targetLen then
    String.mk (List.replicate (targetLen - s.length) pad) ++ s
  else s

/-- The slide file name built by `goToSlide`:
`'slide-' + String(n).padStart(2, '0') + '.html'`. -/
def slideFile (n : Int) : String :=
  "slide-" ++ jsPadStart 2 '0' (toString n) ++ ".html"

/-- Truthiness of an optional string attribute: present and nonempty. -/
def jsTruthy (s : Option String) : Bool :=
  match s with
  | none => false
  | some v => !(v == "")

/-- JavaScript `a || b` for an optional string `a` with fallback `b`. -/
def jsOrStr (a : Option String) (b : String) : String :=
  match a with
  | some v => if v == "" then b else v
  | none => b

/-- The `data-` attributes of the `.slide-container` element. A field is
`none` when the attribute is absent from the markup. -/
structure ContainerData where
  totalSlides : Option String
  currentSlide : Option String
  nextSlide : Option String
  prevSlide : Option String
deriving DecidableEq

/-- State of the `SlidePresenter` controller. `fragments` holds the
visibility flag of each `.fragment` element, in document order. `container`
is `none` when the page has no `.slide-container` element. -/
structure SlidePresenter where
  currentFragmentIndex : Int
  fragments : List Bool
  totalSlides : Int
  currentSlide : Int
  container : Option ContainerData
deriving DecidableEq

/-- An externally visible effect of an input: a page navigation
(`window.location.href = url`) or a fullscreen toggle. -/
inductive Effect where
  | nav (url : String)
  | fullscreenToggle
deriving DecidableEq

/-- `SlidePresenter` constructor followed by the state-reading part of
`init()`: fields default to `(-1, [], 0, 1)`; when a `.slide-container`
exists, `totalSlides` and `currentSlide` are re-read with
`parseInt(...) || 1`. -/
def initPresenter (container : Option ContainerData) (fragments : List Bool) :
    SlidePresenter :=
  match container with
  | none =>
    { currentFragmentIndex := -1, fragments := fragments,
      totalSlides := 0, currentSlide := 1, container := none }
  | some c =>
    { currentFragmentIndex := -1, fragments := fragments,
      totalSlides := parsedOrOne c.totalSlides,
      currentSlide := parsedOrOne c.currentSlide, container := some c }

/-- `goToSlide(slideNum)`: navigate only when `1 ≤ slideNum ≤ totalSlides`;
the presenter state itself is never mutated. -/
def SlidePresenter.goToSlide (p : SlidePresenter) (slideNum : Int) :
    SlidePresenter × Option String :=
  if 1 ≤ slideNum ∧ slideNum ≤ p.totalSlides then
    (p, some (slideFile slideNum))
  else (p, none)

/-- The custom next-target consulted by `next()`:
`container && container.dataset.nextSlide`. -/
def SlidePresenter.customNext (p : SlidePresenter) : Option String :=
  match p.container with
  | some c => if jsTruthy c.nextSlide then c.nextSlide else none
  | none => none

/-- The custom prev-target consulted by `prev()`:
`container && container.dataset.prevSlide`. -/
def SlidePresenter.customPrev (p : SlidePresenter) : Option String :=
  match p.container with
  | some c => if jsTruthy c.prevSlide then c.prevSlide else none
  | none => none

/-- `next()`: reveal the next fragment if one remains; otherwise follow the
custom next link if configured; otherwise go to the next numeric slide. -/
def SlidePresenter.next (p : SlidePresenter) : SlidePresenter × Option String :=
  if p.currentFragmentIndex < (p.fragments.length : Int) - 1 then
    ({ p with
        currentFragmentIndex := p.currentFragmentIndex + 1,
        fragments := p.fragments.set (p.currentFragmentIndex + 1).toNat true },
      none)
  else
    match p.customNext with
    | some url => (p, some url)
    | none =>
      if p.currentSlide < p.totalSlides then
        p.goToSlide (p.currentSlide + 1)
      else (p, none)

/-- `prev()`: hide the most recently revealed fragment if any; otherwise
follow the custom prev link if configured; otherwise go to the previous
numeric slide. -/
def SlidePresenter.prev (p : SlidePresenter) : SlidePresenter × Option String :=
  if 0 ≤ p.currentFragmentIndex then
    ({ p with
        currentFragmentIndex := p.currentFragmentIndex - 1,
        fragments := p.fragments.set p.currentFragmentIndex.toNat false },
      none)
  else
    match p.customPrev with
    | some url => (p, some url)
    | none =>
      if 1 < p.currentSlide then
        p.goToSlide (p.currentSlide - 1)
      else (p, none)

/-- Keyboard keys distinguished by `handleKeydown`. -/
inductive Key where
  | arrowRight
  | space
  | enter
  | arrowLeft
  | backspace
  | home
  | endK
  | escape
  | fKey
  | other
deriving DecidableEq

/-- The `switch` body of `handleKeydown`, shared by both variants. -/
def SlidePresenter.keyAction (p : SlidePresenter) (k : Key) :
    SlidePresenter × Option Effect :=
  match k with
  | Key.arrowRight | Key.space | Key.enter =>
    let r := p.next
    (r.1, r.2.map Effect.nav)
  | Key.arrowLeft | Key.backspace =>
    let r := p.prev
    (r.1, r.2.map Effect.nav)
  | Key.home =>
    let r := p.goToSlide 1
    (r.1, r.2.map Effect.nav)
  | Key.endK =>
    let r := p.goToSlide p.totalSlides
    (r.1, r.2.map Effect.nav)
  | Key.escape => (p, some (Effect.nav "index.html"))
  | Key.fKey => (p, some Effect.fullscreenToggle)
  | Key.other => (p, none)

/-- `handleKeydown` of the unified variant: returns early when the info
dialog is open, otherwise dispatches on the key. -/
def SlidePresenter.handleKeydown (p : SlidePresenter) (dialogOpen : Bool)
    (k : Key) : SlidePresenter × Option Effect :=
  if dialogOpen then (p, none) else p.keyAction k

/-- State of the shared overlay owned by `InfoDialogManager`: the `open`
CSS class plus the injected title and body content. -/
structure InfoDialogManager where
  openFlag : Bool
  title : String
  body : String
deriving DecidableEq

/-- `isOpen()`: the overlay carries the `open` class. -/
def InfoDialogManager.isOpen (d : InfoDialogManager) : Bool := d.openFlag

/-- `close()`: remove the `open` class. -/
def InfoDialogManager.close (d : InfoDialogManager) : InfoDialogManager :=
  { d with openFlag := false }

/-- `open(title, bodyHtml)`: set the overlay title and body and add the
`open` class. -/
def InfoDialogManager.openDialog (d : InfoDialogManager)
    (title bodyHtml : String) : InfoDialogManager :=
  { d with openFlag := true, title := title, body := bodyHtml }

/-- The optional `MathJax.typesetPromise([body]).catch(() => {})` step after
opening: whether the typesetting resolves or rejects, the rejection handler
discards the failure and the dialog state is untouched. -/
def applyTypeset (d : InfoDialogManager) (result : Except String Unit) :
    InfoDialogManager :=
  match result with
  | Except.ok _ => d
  | Except.error _ => d

/-- A target element referenced by an `.info-btn` via `data-dialog`:
its optional `data-title` attribute and its inner HTML. -/
structure TargetElem where
  titleAttr : Option String
  innerHTML : String
deriving DecidableEq

/-- The page's `id → element` map restricted to dialog target elements,
looked up with `document.getElementById`. -/
structure Page where
  dialogTargets : List (String × TargetElem)
deriving DecidableEq

/-- Where a click lands, as discriminated by the registered handlers. -/
inductive ClickTarget where
  | overlayBackdrop
  | dialogInner
  | closeBtn
  | infoBtn (dialogId : String) (btnText : String)
  | slideLinkOrButton
  | slideSurface
deriving DecidableEq

/-- Combined state of the unified variant: the presenter and the single
`InfoDialogManager` instance (`window.infoDialogs`). -/
structure UnifiedSystem where
  presenter : SlidePresenter
  dialog : InfoDialogManager
deriving DecidableEq

/-- Document-level keydown dispatch in the unified variant. Listener
registration order (per the `DOMContentLoaded` handler): the presenter's
`handleKeydown` first, then the dialog manager's Escape handler; both are
bubble-phase listeners on `document`. -/
def UnifiedSystem.dispatchKeydown (s : UnifiedSystem) (k : Key) :
    UnifiedSystem × Option Effect :=
  let r := s.presenter.handleKeydown s.dialog.isOpen k
  let d :=
    if k = Key.escape ∧ s.dialog.openFlag = true then s.dialog.close
    else s.dialog
  ({ presenter := r.1, dialog := d }, r.2)

/-- Click dispatch in the unified variant. The overlay lives directly under
`document.body`, outside the `.slide` element, so clicks on it never reach
the slide's click-to-advance handler; `.info-btn` clicks stop propagation
before it. Clicks on links/buttons inside the slide are filtered out by the
slide handler itself. -/
def UnifiedSystem.dispatchClick (page : Page) (s : UnifiedSystem)
    (t : ClickTarget) : UnifiedSystem × Option Effect :=
  match t with
  | ClickTarget.overlayBackdrop =>
    ({ s with dialog := s.dialog.close }, none)
  | ClickTarget.dialogInner => (s, none)
  | ClickTarget.closeBtn =>
    ({ s with dialog := s.dialog.close }, none)
  | ClickTarget.infoBtn dialogId btnText =>
    match page.dialogTargets.lookup dialogId with
    | some target =>
      let d := s.dialog.openDialog (jsOrStr target.titleAttr btnText) target.innerHTML
      ({ s with dialog := d }, none)
    | none => (s, none)
  | ClickTarget.slideLinkOrButton => (s, none)
  | ClickTarget.slideSurface =>
    if s.dialog.isOpen then (s, none)
    else
      let r := s.presenter.next
      ({ s with presenter := r.1 }, r.2.map Effect.nav)

/-- Combined state of the split variant: the presenter, the
`LectureNotesModal` open flag, and the id of the `DetailButtons` overlay
currently active (if any). -/
structure SplitSystem where
  presenter : SlidePresenter
  notesOpen : Bool
  activeDetail : Option String
deriving DecidableEq

/-- Document-level keydown dispatch in the split variant. The two modal
controllers install capture-phase Escape listeners (notes first, then
details) which call `stopImmediatePropagation`, so an Escape consumed by an
open overlay never reaches the presenter; every other key goes straight to
the presenter's `handleKeydown`, which has no dialog check in this
variant. -/
def SplitSystem.dispatchKeydown (s : SplitSystem) (k : Key) :
    SplitSystem × Option Effect :=
  if k = Key.escape ∧ s.notesOpen = true then
    ({ s with notesOpen := false }, none)
  else if k = Key.escape ∧ s.activeDetail.isSome = true then
    ({ s with activeDetail := none }, none)
  else
    let r := s.presenter.keyAction k
    ({ s with presenter := r.1 }, r.2)

/-- The fragment-index invariant of the data model: the index stays within
`[-1, fragments.length - 1]`. -/
def FragInv (p : SlidePresenter) : Prop :=
  -1 ≤ p.currentFragmentIndex ∧
    p.currentFragmentIndex ≤ (p.fragments.length : Int) - 1

/-- The full data-model invariant on a presenter state: the slide number is
1-based and bounded by the total, and the fragment index is in range. -/
def SlideInv (p : SlidePresenter) : Prop :=
  1 ≤ p.currentSlide ∧ p.currentSlide ≤ p.totalSlides ∧ FragInv p

instance (p : SlidePresenter) : Decidable (FragInv p) := by
  unfold FragInv; infer_instance

instance (p : SlidePresenter) : Decidable (SlideInv p) := by
  unfold SlideInv; infer_instance

/-- Iterated `next()` calls, discarding the navigation effects. -/
def nextIter : Nat → SlidePresenter → SlidePresenter
  | 0, p => p
  | k + 1, p => nextIter k (p.next).1

/-- The format the spec claims for navigation targets: a two-character slide
number between the fixed prefix and suffix. Stated from the spec's words, to
be compared against what `goToSlide` produces. -/
def claimedTwoDigitTarget (url : String) : Prop :=
  ∃ s : String, s.length = 2 ∧ url = "slide-" ++ s ++ ".html"

/-- Example page state: slide 4 of 10, no fragments, attributes read from
the container, no custom next/prev targets. -/
def exDeck : SlidePresenter :=
  { currentFragmentIndex := -1, fragments := [],
    totalSlides := 10, currentSlide := 4,
    container := some ⟨some "10", some "4", none, none⟩ }

/-- Example page state: slide 1 of 3 with two unrevealed fragments. -/
def exFrag : SlidePresenter :=
  { currentFragmentIndex := -1, fragments := [false, false],
    totalSlides := 3, currentSlide := 1, container := none }

/-- Example page state: a deck large enough that slide numbers reach three
decimal digits. -/
def exBigDeck : SlidePresenter :=
  { currentFragmentIndex := -1, fragments := [],
    totalSlides := 100, currentSlide := 99,
    container := some ⟨some "100", some "99", none, none⟩ }

/-- Example page state: slide 2 of 5. -/
def exMidDeck : SlidePresenter :=
  { currentFragmentIndex := -1, fragments := [],
    totalSlides := 5, currentSlide := 2,
    container := some ⟨some "5", some "2", none, none⟩ }

/-- Unified-variant system with the info dialog currently open. -/
def exUnifiedOpen : UnifiedSystem :=
  { presenter := exFrag, dialog := { openFlag := true, title := "", body := "" } }

/-- Split-variant system with the lecture-notes overlay currently open and
the same presenter state as `exUnifiedOpen`. -/
def exSplitOpen : SplitSystem :=
  { presenter := exFrag, notesOpen := true, activeDetail := none }

/-- A page with no dialog target elements at all. -/
def exEmptyPage : Page := { dialogTargets := [] }

/-- Container whose data attributes carry total-slide count 7 and current
slide 3. -/
def exCont7 : ContainerData :=
  { totalSlides := some "7", currentSlide := some "3",
    nextSlide := none, prevSlide := none }

/-! ## Helper lemmas -/

theorem parsedOrOne_spec (s : Option String) :
    (∀ v : Int, s.bind parseIntJS = some v → v ≠ 0 → parsedOrOne s = v) ∧
      (s.bind parseIntJS = none → parsedOrOne s = 1) ∧
      (s.bind parseIntJS = some 0 → parsedOrOne s = 1) := by
  refine ⟨?_, ?_, ?_⟩
  · intro v hv hne
    unfold parsedOrOne
    rw [hv]
    simp [hne]
  · intro h
    unfold parsedOrOne
    rw [h]
  · intro h
    unfold parsedOrOne
    rw [h]
    simp

theorem jsPadStart_two_le (s : String) : 2 ≤ (jsPadStart 2 '0' s).length := by
  unfold jsPadStart
  split
  · rename_i h
    rw [String.length_append]
    simp only [String.length, String.data]
    simp [List.length_replicate]
    omega
  · omega

/-! ## Theorems for the claims -/

/-- C8: `open(title, bodyContent)` sets the overlay's title and body and
marks it open; the optional math-typesetting step's outcome is discarded, so
after opening, `isOpen()` is `true` and the title/body are the injected ones
whether the rendering succeeds or fails. -/
theorem c8_open_swallows_typeset_failure (d : InfoDialogManager)
    (t b : String) (r : Except String Unit) :
    applyTypeset (d.openDialog t b) r = d.openDialog t b ∧
      (applyTypeset (d.openDialog t b) r).isOpen = true ∧
      (applyTypeset (d.openDialog t b) r).title = t ∧
      (applyTypeset (d.openDialog t b) r).body = b := by
  cases r <;> exact ⟨rfl, rfl, rfl, rfl⟩

/-- C10: clicking an info trigger button whose `data-dialog` id matches no
element on the page is a complete no-op: the system state (dialog contents
and open flag included) is unchanged and no navigation effect is emitted. -/
theorem c10_missing_dialog_target_noop (page : Page) (s : UnifiedSystem)
    (dialogId btnText : String)
    (h : page.dialogTargets.lookup dialogId = none) :
    UnifiedSystem.dispatchClick page s (ClickTarget.infoBtn dialogId btnText) =
      (s, none) := by
  simp only [UnifiedSystem.dispatchClick, h]

/-- Witness for C10 at a concrete page with no dialog targets. -/
theorem c10_missing_dialog_target_noop_witness :
    exEmptyPage.dialogTargets.lookup "missing" = none ∧
      UnifiedSystem.dispatchClick exEmptyPage exUnifiedOpen
        (ClickTarget.infoBtn "missing" "More info") = (exUnifiedOpen, none) :=
  ⟨by decide,
    c10_missing_dialog_target_noop exEmptyPage exUnifiedOpen "missing"
      "More info" (by decide)⟩

/-- C7: with the dialog open, Escape closes the dialog while the presenter's
Escape action is suppressed (no navigation to the index page and no
presenter change); closing via the close button or a backdrop click likewise
leaves the dialog closed, emits no effect, and does not advance the slide. -/
theorem c7_dialog_close_precedence (s : UnifiedSystem) (page : Page)
    (h : s.dialog.isOpen = true) :
    s.dispatchKeydown Key.escape =
        ({ presenter := s.presenter, dialog := s.dialog.close }, none) ∧
      UnifiedSystem.dispatchClick page s ClickTarget.closeBtn =
        ({ s with dialog := s.dialog.close }, none) ∧
      UnifiedSystem.dispatchClick page s ClickTarget.overlayBackdrop =
        ({ s with dialog := s.dialog.close }, none) ∧
      (s.dialog.close).isOpen = false := by
  have hflag : s.dialog.openFlag = true := h
  refine ⟨?_, rfl, rfl, rfl⟩
  simp [UnifiedSystem.dispatchKeydown, SlidePresenter.handleKeydown,
    InfoDialogManager.isOpen, hflag]

/-- Witness for C7 at a concrete open-dialog system. -/
theorem c7_dialog_close_precedence_witness :
    exUnifiedOpen.dialog.isOpen = true ∧
      exUnifiedOpen.dispatchKeydown Key.escape =
        ({ presenter := exUnifiedOpen.presenter,
           dialog := exUnifiedOpen.dialog.close }, none) :=
  ⟨by decide, (c7_dialog_close_precedence exUnifiedOpen exEmptyPage (by decide)).1⟩

/-- C6 counterexample: on a page with no slide container, `totalSlides`
keeps the constructor's `0` instead of the claimed default `1`. -/
theorem c6_no_container_counterexample :
    (initPresenter none []).totalSlides = 0 ∧
      ¬ (initPresenter none []).totalSlides = 1 := by
  decide

/-- C6 (amended): when the slide container is present, `totalSlides` and
`currentSlide` equal the parsed attribute when it parses to a nonzero
integer and default to `1` otherwise; when the container is absent,
`currentSlide` defaults to `1` but `totalSlides` keeps the constructor's
`0`. Fragments are the collected flags and the fragment index starts
at `-1` in every case. -/
theorem c6_init_defaults (frags : List Bool) (c : ContainerData) :
    ((initPresenter none frags).totalSlides = 0 ∧
      (initPresenter none frags).currentSlide = 1 ∧
      (initPresenter none frags).fragments = frags ∧
      (initPresenter none frags).currentFragmentIndex = -1) ∧
    ((initPresenter (some c) frags).fragments = frags ∧
      (initPresenter (some c) frags).currentFragmentIndex = -1 ∧
      (∀ v : Int, c.totalSlides.bind parseIntJS = some v → v ≠ 0 →
        (initPresenter (some c) frags).totalSlides = v) ∧
      ((c.totalSlides.bind parseIntJS = none ∨
          c.totalSlides.bind parseIntJS = some 0) →
        (initPresenter (some c) frags).totalSlides = 1) ∧
      (∀ v : Int, c.currentSlide.bind parseIntJS = some v → v ≠ 0 →
        (initPresenter (some c) frags).currentSlide = v) ∧
      ((c.currentSlide.bind parseIntJS = none ∨
          c.currentSlide.bind parseIntJS = some 0) →
        (initPresenter (some c) frags).currentSlide = 1)) := by
  refine ⟨⟨rfl, rfl, rfl, rfl⟩, rfl, rfl, ?_, ?_, ?_, ?_⟩
  · intro v hv hne
    exact (parsedOrOne_spec c.totalSlides).1 v hv hne
  · rintro (h | h)
    · exact (parsedOrOne_spec c.totalSlides).2.1 h
    · exact (parsedOrOne_spec c.totalSlides).2.2 h
  · intro v hv hne
    exact (parsedOrOne_spec c.currentSlide).1 v hv hne
  · rintro (h | h)
    · exact (parsedOrOne_spec c.currentSlide).2.1 h
    · exact (parsedOrOne_spec c.currentSlide).2.2 h

/-- Witness for C6 (amended): attributes `"7"` and `"3"` parse to those
values, so initialization yields `totalSlides = 7` and `currentSlide = 3`. -/
theorem c6_init_defaults_witness :
    exCont7.totalSlides.bind parseIntJS = some 7 ∧ (7 : Int) ≠ 0 ∧
      (initPresenter (some exCont7) []).totalSlides = 7 ∧
      exCont7.currentSlide.bind parseIntJS = some 3 ∧
      (initPresenter (some exCont7) []).currentSlide = 3 :=
  ⟨by decide, by decide,
    (c6_init_defaults [] exCont7).2.2.2.1 7 (by decide) (by decide),
    by decide,
    (c6_init_defaults [] exCont7).2.2.2.2.2.1 3 (by decide) (by decide)⟩

/-- C4 counterexample: with 100 slides, `goToSlide(100)` navigates to
`slide-100.html`, whose slide number is three digits, not the claimed
exactly two. -/
theorem c4_three_digit_counterexample :
    (exBigDeck.goToSlide 100).2 = some "slide-100.html" ∧
      ¬ claimedTwoDigitTarget "slide-100.html" := by
  refine ⟨by decide, ?_⟩
  rintro ⟨s, hs, heq⟩
  have hlen := congrArg String.length heq
  rw [String.length_append, String.length_append, hs] at hlen
  rw [show ("slide-100.html").length = 14 from rfl,
    show ("slide-".length) = 6 from rfl,
    show (".html".length) = 5 from rfl] at hlen
  omega

/-- C4 (amended): `goToSlide(n)` navigates iff `1 ≤ n ≤ totalSlides`, never
mutates the presenter, and when it navigates the target is `'slide-' +
String(n).padStart(2, '0') + '.html'` — the number zero-padded to at least
two digits (numbers of three or more digits keep all their digits). -/
theorem c4_goToSlide_range_and_format (p : SlidePresenter) (n : Int) :
    ((p.goToSlide n).2.isSome = true ↔ 1 ≤ n ∧ n ≤ p.totalSlides) ∧
      (p.goToSlide n).1 = p ∧
      (1 ≤ n → n ≤ p.totalSlides →
        (p.goToSlide n).2 = some ("slide-" ++ jsPadStart 2 '0' (toString n) ++ ".html")) ∧
      (∀ s : String, 2 ≤ (jsPadStart 2 '0' s).length) := by
  unfold SlidePresenter.goToSlide
  refine ⟨?_, ?_, ?_, jsPadStart_two_le⟩
  · constructor
    · intro h
      by_contra hc
      rw [if_neg hc] at h
      simp at h
    · intro h
      rw [if_pos h]
      rfl
  · split <;> rfl
  · intro h1 h2
    rw [if_pos ⟨h1, h2⟩]
    rfl

/-- Witness for C4 (amended): `goToSlide(3)` on a 5-slide deck navigates to
`slide-03.html`, and out-of-range calls are no-ops. -/
theorem c4_goToSlide_range_and_format_witness :
    (1 : Int) ≤ 3 ∧ (3 : Int) ≤ exMidDeck.totalSlides ∧
      (exMidDeck.goToSlide 3).2 = some "slide-03.html" ∧
      (exMidDeck.goToSlide 0).2 = none ∧ (exMidDeck.goToSlide 6).2 = none := by
  refine ⟨by decide, by decide, ?_, ?_, ?_⟩
  · have h := (c4_goToSlide_range_and_format exMidDeck 3).2.2.1 (by decide) (by decide)
    rw [h]
    decide
  · have h := (c4_goToSlide_range_and_format exMidDeck 0).1
    cases ho : (exMidDeck.goToSlide 0).2 with
    | none => rfl
    | some v =>
      have : (1 : Int) ≤ 0 ∧ (0 : Int) ≤ exMidDeck.totalSlides := by
        apply h.mp
        rw [ho]
        rfl
      exact absurd this.1 (by decide)
  · have h := (c4_goToSlide_range_and_format exMidDeck 6).1
    cases ho : (exMidDeck.goToSlide 6).2 with
    | none => rfl
    | some v =>
      have : (1 : Int) ≤ 6 ∧ (6 : Int) ≤ exMidDeck.totalSlides := by
        apply h.mp
        rw [ho]
        rfl
      exact absurd this.2 (by decide)

/-- C1: for every presenter state of the data model (1-based slide number
bounded by the total, fragment index in range), `next()` follows the exact
priority order: reveal the next fragment (no navigation); else follow the
configured custom next target; else navigate to the next slide's file when
`currentSlide < totalSlides`; else do nothing. -/
theorem c1_next_priority (p : SlidePresenter) (h : SlideInv p) :
    (p.currentFragmentIndex < (p.fragments.length : Int) - 1 →
      p.next =
        ({ p with
            currentFragmentIndex := p.currentFragmentIndex + 1,
            fragments := p.fragments.set (p.currentFragmentIndex + 1).toNat true },
          none)) ∧
    (∀ url : String, (p.fragments.length : Int) - 1 ≤ p.currentFragmentIndex →
      p.customNext = some url → p.next = (p, some url)) ∧
    ((p.fragments.length : Int) - 1 ≤ p.currentFragmentIndex →
      p.customNext = none → p.currentSlide < p.totalSlides →
      p.next = (p, some (slideFile (p.currentSlide + 1)))) ∧
    ((p.fragments.length : Int) - 1 ≤ p.currentFragmentIndex →
      p.customNext = none → ¬ p.currentSlide < p.totalSlides →
      p.next = (p, none)) := by
  unfold SlideInv FragInv at h
  obtain ⟨hcs1, hcs2, hfi1, hfi2⟩ := h
  refine ⟨?_, ?_, ?_, ?_⟩
  · intro hf
    unfold SlidePresenter.next
    rw [if_pos hf]
  · intro url hge hcn
    unfold SlidePresenter.next
    rw [if_neg (by omega), hcn]
  · intro hge hcn hlt
    unfold SlidePresenter.next
    rw [if_neg (by omega), hcn]
    show (if p.currentSlide < p.totalSlides then p.goToSlide (p.currentSlide + 1)
      else (p, none)) = (p, some (slideFile (p.currentSlide + 1)))
    rw [if_pos hlt]
    unfold SlidePresenter.goToSlide
    rw [if_pos ⟨by omega, by omega⟩]
  · intro hge hcn hge2
    unfold SlidePresenter.next
    rw [if_neg (by omega), hcn]
    show (if p.currentSlide < p.totalSlides then p.goToSlide (p.currentSlide + 1)
      else (p, none)) = (p, none)
    rw [if_neg hge2]

/-- Witness for C1: slide 4 of 10 with no fragments; `next()` navigates to
`slide-05.html`. -/
theorem c1_next_priority_witness :
    SlideInv exDeck ∧ exDeck.next = (exDeck, some "slide-05.html") := by
  refine ⟨by decide, ?_⟩
  have h := (c1_next_priority exDeck (by decide)).2.2.1 (by decide) (by decide)
    (by decide)
  rw [h]
  decide

/-- C2: for every presenter state of the data model, `prev()` follows the
exact priority order: hide the fragment at the current index and decrement
(no navigation); else follow the configured custom prev target; else
navigate to the previous slide's file when `currentSlide > 1`; else do
nothing. -/
theorem c2_prev_priority (p : SlidePresenter) (h : SlideInv p) :
    (0 ≤ p.currentFragmentIndex →
      p.prev =
        ({ p with
            currentFragmentIndex := p.currentFragmentIndex - 1,
            fragments := p.fragments.set p.currentFragmentIndex.toNat false },
          none)) ∧
    (∀ url : String, p.currentFragmentIndex < 0 →
      p.customPrev = some url → p.prev = (p, some url)) ∧
    (p.currentFragmentIndex < 0 → p.customPrev = none → 1 < p.currentSlide →
      p.prev = (p, some (slideFile (p.currentSlide - 1)))) ∧
    (p.currentFragmentIndex < 0 → p.customPrev = none → ¬ 1 < p.currentSlide →
      p.prev = (p, none)) := by
  unfold SlideInv FragInv at h
  obtain ⟨hcs1, hcs2, hfi1, hfi2⟩ := h
  refine ⟨?_, ?_, ?_, ?_⟩
  · intro hf
    unfold SlidePresenter.prev
    rw [if_pos hf]
  · intro url hlt hcp
    unfold SlidePresenter.prev
    rw [if_neg (by omega), hcp]
  · intro hlt hcp hgt
    unfold SlidePresenter.prev
    rw [if_neg (by omega), hcp]
    show (if 1 < p.currentSlide then p.goToSlide (p.currentSlide - 1)
      else (p, none)) = (p, some (slideFile (p.currentSlide - 1)))
    rw [if_pos hgt]
    unfold SlidePresenter.goToSlide
    rw [if_pos ⟨by omega, by omega⟩]
  · intro hlt hcp hle
    unfold SlidePresenter.prev
    rw [if_neg (by omega), hcp]
    show (if 1 < p.currentSlide then p.goToSlide (p.currentSlide - 1)
      else (p, none)) = (p, none)
    rw [if_neg hle]

/-- Witness for C2: slide 4 of 10 with no fragments; `prev()` navigates to
`slide-03.html`. -/
theorem c2_prev_priority_witness :
    SlideInv exDeck ∧ exDeck.prev = (exDeck, some "slide-03.html") := by
  refine ⟨by decide, ?_⟩
  have h := (c2_prev_priority exDeck (by decide)).2.2.1 (by decide) (by decide)
    (by decide)
  rw [h]
  decide

/-- C3 counterexample: in the split-controller variant, with the
lecture-notes overlay open, pressing Right still advances the fragment
index — the claimed suppression does not hold in that variant. -/
theorem c3_split_not_suppressed_counterexample :
    exSplitOpen.notesOpen = true ∧
      exSplitOpen.presenter.currentFragmentIndex = -1 ∧
      (exSplitOpen.dispatchKeydown Key.arrowRight).1.presenter.currentFragmentIndex
        = 0 ∧
      (exSplitOpen.dispatchKeydown Key.arrowRight).1.presenter ≠
        exSplitOpen.presenter := by
  decide

/-- C3 (amended): in the unified variant, while the info dialog is open,
every keyboard input and every click on the slide surface leaves the
presenter unchanged and emits no effect, and once the dialog is closed the
keyboard inputs have their normal `keyAction` effect; in the split variant
only Escape is intercepted by the open notes overlay (closing it), while
every other key keeps its normal effect regardless of the overlay. -/
theorem c3_dialog_suppression (s : UnifiedSystem) (k : Key) (page : Page)
    (t : SplitSystem) :
    (s.dialog.isOpen = true →
      (s.dispatchKeydown k).1.presenter = s.presenter ∧
        (s.dispatchKeydown k).2 = none ∧
        UnifiedSystem.dispatchClick page s ClickTarget.slideSurface = (s, none)) ∧
    (s.dialog.isOpen = false →
      (s.dispatchKeydown k).1.presenter = (s.presenter.keyAction k).1 ∧
        (s.dispatchKeydown k).2 = (s.presenter.keyAction k).2 ∧
        (UnifiedSystem.dispatchClick page s ClickTarget.slideSurface).1.presenter
          = (s.presenter.next).1 ∧
        (UnifiedSystem.dispatchClick page s ClickTarget.slideSurface).2
          = (s.presenter.next).2.map Effect.nav) ∧
    (t.notesOpen = true →
      t.dispatchKeydown Key.escape = ({ t with notesOpen := false }, none)) ∧
    (k ≠ Key.escape →
      (t.dispatchKeydown k).1.presenter = (t.presenter.keyAction k).1 ∧
        (t.dispatchKeydown k).2 = (t.presenter.keyAction k).2) := by
  refine ⟨?_, ?_, ?_, ?_⟩
  · intro hopen
    refine ⟨?_, ?_, ?_⟩
    · simp [UnifiedSystem.dispatchKeydown, SlidePresenter.handleKeydown, hopen]
    · simp [UnifiedSystem.dispatchKeydown, SlidePresenter.handleKeydown, hopen]
    · simp [UnifiedSystem.dispatchClick, hopen]
  · intro hclosed
    refine ⟨?_, ?_, ?_, ?_⟩
    · simp [UnifiedSystem.dispatchKeydown, SlidePresenter.handleKeydown, hclosed]
    · simp [UnifiedSystem.dispatchKeydown, SlidePresenter.handleKeydown, hclosed]
    · simp [UnifiedSystem.dispatchClick, hclosed]
    · simp [UnifiedSystem.dispatchClick, hclosed]
  · intro hnotes
    simp [SplitSystem.dispatchKeydown, hnotes]
  · intro hk
    simp [SplitSystem.dispatchKeydown, hk]

/-- Witness for C3 (amended): with the unified dialog open, Right leaves the
presenter unchanged; with the split notes overlay open, Escape closes it
without touching the presenter. -/
theorem c3_dialog_suppression_witness :
    exUnifiedOpen.dialog.isOpen = true ∧
      (exUnifiedOpen.dispatchKeydown Key.arrowRight).1.presenter =
        exUnifiedOpen.presenter ∧
      exSplitOpen.notesOpen = true ∧
      exSplitOpen.dispatchKeydown Key.escape =
        ({ exSplitOpen with notesOpen := false }, none) := by
  refine ⟨by decide, ?_, by decide, ?_⟩
  · exact ((c3_dialog_suppression exUnifiedOpen Key.arrowRight exEmptyPage
      exSplitOpen).1 (by decide)).1
  · exact (c3_dialog_suppression exUnifiedOpen Key.arrowRight exEmptyPage
      exSplitOpen).2.2.1 (by decide)

/-- C9 counterexample: starting from the same presenter state with an open
overlay in both variants, pressing Right leaves the unified variant's
presenter unchanged but advances the split variant's presenter — the two
variants are not behaviorally equivalent in their interaction with
navigation. -/
theorem c9_variants_differ_counterexample :
    exUnifiedOpen.dialog.isOpen = true ∧ exSplitOpen.notesOpen = true ∧
      exUnifiedOpen.presenter = exSplitOpen.presenter ∧
      (exUnifiedOpen.dispatchKeydown Key.arrowRight).1.presenter ≠
        (exSplitOpen.dispatchKeydown Key.arrowRight).1.presenter := by
  decide

/-- C9 (amended): the two variants agree on open/close/Escape semantics —
in both, Escape while the overlay is open closes it, leaves the presenter
untouched and emits no effect, and Escape while it is closed triggers the
presenter's normal index navigation — but they are not equivalent for the
other navigation inputs while an overlay is open: the split variant's
presenter never consults the overlay, so those inputs keep their normal
effect there, whereas the unified variant suppresses them. -/
theorem c9_escape_semantics_agree (s : UnifiedSystem) (t : SplitSystem)
    (k : Key) :
    (s.dialog.isOpen = true → t.notesOpen = true →
      ((s.dispatchKeydown Key.escape).1.presenter = s.presenter ∧
        (s.dispatchKeydown Key.escape).1.dialog.isOpen = false ∧
        (s.dispatchKeydown Key.escape).2 = none) ∧
      ((t.dispatchKeydown Key.escape).1.presenter = t.presenter ∧
        (t.dispatchKeydown Key.escape).1.notesOpen = false ∧
        (t.dispatchKeydown Key.escape).2 = none)) ∧
    (s.dialog.isOpen = false → t.notesOpen = false → t.activeDetail = none →
      (s.dispatchKeydown Key.escape).2 = some (Effect.nav "index.html") ∧
        (t.dispatchKeydown Key.escape).2 = some (Effect.nav "index.html")) ∧
    (s.dialog.isOpen = true → k ≠ Key.escape →
      (s.dispatchKeydown k).1.presenter = s.presenter ∧
        (s.dispatchKeydown k).2 = none) ∧
    (k ≠ Key.escape →
      (t.dispatchKeydown k).1.presenter = (t.presenter.keyAction k).1 ∧
        (t.dispatchKeydown k).2 = (t.presenter.keyAction k).2) := by
  refine ⟨?_, ?_, ?_, ?_⟩
  · intro hu ht
    constructor
    · refine ⟨?_, ?_, ?_⟩ <;>
        simp [UnifiedSystem.dispatchKeydown, SlidePresenter.handleKeydown,
          InfoDialogManager.isOpen, InfoDialogManager.close, hu,
          show s.dialog.openFlag = true from hu]
    · refine ⟨?_, ?_, ?_⟩ <;> simp [SplitSystem.dispatchKeydown, ht]
  · intro hu ht hd
    constructor
    · simp [UnifiedSystem.dispatchKeydown, SlidePresenter.handleKeydown,
        InfoDialogManager.isOpen, hu, SlidePresenter.keyAction,
        show s.dialog.openFlag = false from hu]
    · simp [SplitSystem.dispatchKeydown, ht, hd, SlidePresenter.keyAction]
  · intro hu hk
    constructor <;>
      simp [UnifiedSystem.dispatchKeydown, SlidePresenter.handleKeydown, hu]
  · intro hk
    constructor <;> simp [SplitSystem.dispatchKeydown, hk]

/-- Witness for C9 (amended): Escape with the overlay open closes it in both
variants without presenter effect. -/
theorem c9_escape_semantics_agree_witness :
    exUnifiedOpen.dialog.isOpen = true ∧ exSplitOpen.notesOpen = true ∧
      (exUnifiedOpen.dispatchKeydown Key.escape).1.dialog.isOpen = false ∧
      (exSplitOpen.dispatchKeydown Key.escape).1.notesOpen = false := by
  refine ⟨by decide, by decide, ?_, ?_⟩
  · exact (((c9_escape_semantics_agree exUnifiedOpen exSplitOpen
      Key.arrowRight).1 (by decide) (by decide)).1).2.1
  · exact (((c9_escape_semantics_agree exUnifiedOpen exSplitOpen
      Key.arrowRight).1 (by decide) (by decide)).2).2.1

theorem set_true_getD (l : List Bool) (n m : Nat)
    (h : l.getD m false = true) : (l.set n true).getD m false = true := by
  by_cases hnm : n = m
  · subst hnm
    by_cases hlen : n < l.length
    · simp [List.getD_eq_getElem?_getD, List.getElem?_set_eq_of_lt _ hlen]
    · rw [List.set_eq_of_length_le (by omega)]
      exact h
  · rw [List.getD_eq_getElem?_getD, List.getElem?_set_ne hnm,
      ← List.getD_eq_getElem?_getD]
    exact h

theorem set_getD_self (l : List Bool) (n : Nat) (b : Bool) (h : n < l.length) :
    (l.set n b).getD n false = b := by
  simp [List.getD_eq_getElem?_getD, List.getElem?_set_eq_of_lt b h]

theorem next_frag_step (p : SlidePresenter)
    (hlt : p.currentFragmentIndex < (p.fragments.length : Int) - 1) :
    p.next =
      ({ p with
          currentFragmentIndex := p.currentFragmentIndex + 1,
          fragments := p.fragments.set (p.currentFragmentIndex + 1).toNat true },
        none) := by
  unfold SlidePresenter.next
  rw [if_pos hlt]

theorem next_fst_of_ge (p : SlidePresenter)
    (hge : (p.fragments.length : Int) - 1 ≤ p.currentFragmentIndex) :
    (p.next).1 = p := by
  unfold SlidePresenter.next
  rw [if_neg (by omega)]
  cases hc : p.customNext with
  | some url => rfl
  | none =>
    show (if p.currentSlide < p.totalSlides then p.goToSlide (p.currentSlide + 1)
      else (p, none)).1 = p
    unfold SlidePresenter.goToSlide
    split
    · split <;> rfl
    · rfl

theorem prev_frag_step (p : SlidePresenter) (hge : 0 ≤ p.currentFragmentIndex) :
    p.prev =
      ({ p with
          currentFragmentIndex := p.currentFragmentIndex - 1,
          fragments := p.fragments.set p.currentFragmentIndex.toNat false },
        none) := by
  unfold SlidePresenter.prev
  rw [if_pos hge]

theorem prev_fst_of_neg (p : SlidePresenter)
    (hlt : p.currentFragmentIndex < 0) : (p.prev).1 = p := by
  unfold SlidePresenter.prev
  rw [if_neg (by omega)]
  cases hc : p.customPrev with
  | some url => rfl
  | none =>
    show (if 1 < p.currentSlide then p.goToSlide (p.currentSlide - 1)
      else (p, none)).1 = p
    unfold SlidePresenter.goToSlide
    split
    · split <;> rfl
    · rfl

theorem next_fragments_length (p : SlidePresenter) :
    (p.next).1.fragments.length = p.fragments.length := by
  by_cases hlt : p.currentFragmentIndex < (p.fragments.length : Int) - 1
  · rw [next_frag_step p hlt]
    exact List.length_set p.fragments _ true
  · rw [next_fst_of_ge p (by omega)]

theorem next_getD_true (p : SlidePresenter) (m : Nat)
    (h : p.fragments.getD m false = true) :
    (p.next).1.fragments.getD m false = true := by
  by_cases hlt : p.currentFragmentIndex < (p.fragments.length : Int) - 1
  · rw [next_frag_step p hlt]
    exact set_true_getD _ _ _ h
  · rw [next_fst_of_ge p (by omega)]
    exact h

theorem nextIter_getD_true (k : Nat) :
    ∀ (p : SlidePresenter) (m : Nat), p.fragments.getD m false = true →
      (nextIter k p).fragments.getD m false = true := by
  induction k with
  | zero => intro p m h; exact h
  | succ k ih =>
    intro p m h
    exact ih (p.next).1 m (next_getD_true p m h)

theorem nextIter_reveal (k : Nat) :
    ∀ (p : SlidePresenter), FragInv p →
      (k : Int) = (p.fragments.length : Int) - 1 - p.currentFragmentIndex →
      (∀ j, j < k → ((nextIter j p).next).2 = none) ∧
        (nextIter k p).currentFragmentIndex = (p.fragments.length : Int) - 1 ∧
        (∀ m : Nat, p.currentFragmentIndex < (m : Int) →
          (m : Int) < (p.fragments.length : Int) →
          (nextIter k p).fragments.getD m false = true) := by
  induction k with
  | zero =>
    intro p hinv hk
    refine ⟨fun j hj => absurd hj (by omega), ?_, ?_⟩
    · show p.currentFragmentIndex = (p.fragments.length : Int) - 1
      omega
    · intro m hm1 hm2
      exfalso
      omega
  | succ k ih =>
    intro p hinv hk
    obtain ⟨hinv1, hinv2⟩ := hinv
    have hlt : p.currentFragmentIndex < (p.fragments.length : Int) - 1 := by omega
    have hstep := next_frag_step p hlt
    have hfst : (p.next).1 =
        { p with
            currentFragmentIndex := p.currentFragmentIndex + 1,
            fragments := p.fragments.set (p.currentFragmentIndex + 1).toNat true } := by
      rw [hstep]
    have hlen : (p.next).1.fragments.length = p.fragments.length :=
      next_fragments_length p
    have hidx : (p.next).1.currentFragmentIndex = p.currentFragmentIndex + 1 := by
      rw [hfst]
    have hinv' : FragInv (p.next).1 := by
      constructor
      · rw [hidx]; omega
      · rw [hidx, hlen]; omega
    have hk' : (k : Int) =
        ((p.next).1.fragments.length : Int) - 1 - (p.next).1.currentFragmentIndex := by
      rw [hidx, hlen]
      omega
    obtain ⟨ih1, ih2, ih3⟩ := ih (p.next).1 hinv' hk'
    refine ⟨?_, ?_, ?_⟩
    · intro j hj
      cases j with
      | zero =>
        show (p.next).2 = none
        rw [hstep]
      | succ j =>
        show ((nextIter j (p.next).1).next).2 = none
        exact ih1 j (by omega)
    · show (nextIter k (p.next).1).currentFragmentIndex = _
      rw [ih2, hlen]
    · intro m hm1 hm2
      show (nextIter k (p.next).1).fragments.getD m false = true
      by_cases hm : (m : Int) = p.currentFragmentIndex + 1
      · apply nextIter_getD_true
        rw [hfst]
        show (p.fragments.set (p.currentFragmentIndex + 1).toNat true).getD m false = true
        have htn : (p.currentFragmentIndex + 1).toNat = m := by omega
        rw [htn]
        exact set_getD_self p.fragments m true (by omega)
      · apply ih3 m
        · rw [hidx]; omega
        · rw [hlen]; omega

/-- C5: from any state satisfying the fragment-index invariant, `next()` and
`prev()` preserve it, each call moves the index by at most one, navigation
is emitted by `next()` only with the index at `fragments.length - 1` and by
`prev()` only with the index at `-1`; and iterating `next()` from index `i`
performs `F - 1 - i` navigation-free reveal steps after which the index is
`F - 1` and every remaining fragment (all indices above `i`) is visible in
document order. -/
theorem c5_fragment_invariant (p : SlidePresenter) (h : FragInv p) :
    (FragInv (p.next).1 ∧ FragInv (p.prev).1) ∧
      (((p.next).1.currentFragmentIndex - p.currentFragmentIndex).natAbs ≤ 1 ∧
        ((p.prev).1.currentFragmentIndex - p.currentFragmentIndex).natAbs ≤ 1) ∧
      ((p.next).2 ≠ none →
        p.currentFragmentIndex = (p.fragments.length : Int) - 1) ∧
      ((p.prev).2 ≠ none → p.currentFragmentIndex = -1) ∧
      ((∀ j, j < ((p.fragments.length : Int) - 1 - p.currentFragmentIndex).toNat →
          ((nextIter j p).next).2 = none) ∧
        (nextIter ((p.fragments.length : Int) - 1 -
            p.currentFragmentIndex).toNat p).currentFragmentIndex =
          (p.fragments.length : Int) - 1 ∧
        (∀ m : Nat, p.currentFragmentIndex < (m : Int) →
          (m : Int) < (p.fragments.length : Int) →
          (nextIter ((p.fragments.length : Int) - 1 -
            p.currentFragmentIndex).toNat p).fragments.getD m false = true)) := by
  obtain ⟨h1, h2⟩ := h
  have hk : ((((p.fragments.length : Int) - 1 - p.currentFragmentIndex).toNat : Int)) =
      (p.fragments.length : Int) - 1 - p.currentFragmentIndex :=
    Int.toNat_of_nonneg (by omega)
  refine ⟨⟨?_, ?_⟩, ⟨?_, ?_⟩, ?_, ?_, ?_⟩
  · by_cases hlt : p.currentFragmentIndex < (p.fragments.length : Int) - 1
    · rw [next_frag_step p hlt]
      constructor
      · show -1 ≤ p.currentFragmentIndex + 1
        omega
      · show p.currentFragmentIndex + 1 ≤
          ((p.fragments.set (p.currentFragmentIndex + 1).toNat true).length : Int) - 1
        rw [List.length_set]
        omega
    · rw [next_fst_of_ge p (by omega)]
      exact ⟨h1, h2⟩
  · by_cases hge : 0 ≤ p.currentFragmentIndex
    · rw [prev_frag_step p hge]
      constructor
      · show -1 ≤ p.currentFragmentIndex - 1
        omega
      · show p.currentFragmentIndex - 1 ≤
          ((p.fragments.set p.currentFragmentIndex.toNat false).length : Int) - 1
        rw [List.length_set]
        omega
    · rw [prev_fst_of_neg p (by omega)]
      exact ⟨h1, h2⟩
  · by_cases hlt : p.currentFragmentIndex < (p.fragments.length : Int) - 1
    · rw [next_frag_step p hlt]
      show ((p.currentFragmentIndex + 1) - p.currentFragmentIndex).natAbs ≤ 1
      omega
    · rw [next_fst_of_ge p (by omega)]
      omega
  · by_cases hge : 0 ≤ p.currentFragmentIndex
    · rw [prev_frag_step p hge]
      show ((p.currentFragmentIndex - 1) - p.currentFragmentIndex).natAbs ≤ 1
      omega
    · rw [prev_fst_of_neg p (by omega)]
      omega
  · intro hne
    by_cases hlt : p.currentFragmentIndex < (p.fragments.length : Int) - 1
    · rw [next_frag_step p hlt] at hne
      simp at hne
    · omega
  · intro hne
    by_cases hge : 0 ≤ p.currentFragmentIndex
    · rw [prev_frag_step p hge] at hne
      simp at hne
    · omega
  · exact nextIter_reveal _ p ⟨h1, h2⟩ hk

/-- Witness for C5: two unrevealed fragments; iterating `next()` twice
reveals both with no navigation, ending at index 1. -/
theorem c5_fragment_invariant_witness :
    FragInv exFrag ∧
      (nextIter ((exFrag.fragments.length : Int) - 1 -
          exFrag.currentFragmentIndex).toNat exFrag).currentFragmentIndex =
        (exFrag.fragments.length : Int) - 1 :=
  ⟨by decide, (c5_fragment_invariant exFrag (by decide)).2.2.2.2.2.1⟩
